import Mathlib

/-!
Verification of the DE1 BLE simulator (Controller engine in `main.cpp` and
the Radio Agent daemon) against its natural-language specification.

The development shallowly embeds the protocol engine: doubles are modelled
as rationals, machine states and substates as their 8-bit numeric codes
(`Nat`), characteristic payloads as lists of byte values, and each Qt slot
as a pure function from the simulator state to a new state together with
the notifications and log entries it emits.  The model assumes the control
socket is connected, so outbound notifications are always recorded.
-/

namespace DE1

/-- Characteristic short IDs, from the `DE1` namespace of `main.cpp`. -/
def CHAR_VERSION : String := "A001"

def CHAR_REQUESTED_STATE : String := "A002"

def CHAR_READ_FROM_MMR : String := "A005"

def CHAR_WRITE_TO_MMR : String := "A006"

def CHAR_SHOT_SETTINGS : String := "A00B"

def CHAR_SHOT_SAMPLE : String := "A00D"

def CHAR_STATE_INFO : String := "A00E"

def CHAR_HEADER_WRITE : String := "A00F"

def CHAR_FRAME_WRITE : String := "A010"

def CHAR_WATER_LEVELS : String := "A011"

/-- `DE1::State::Sleep` (numeric code 0x00). -/
def StateSleep : Nat := 0x00

/-- `DE1::State::Idle` (numeric code 0x02). -/
def StateIdle : Nat := 0x02

/-- `DE1::State::Espresso` (numeric code 0x04). -/
def StateEspresso : Nat := 0x04

/-- `DE1::State::Steam` (numeric code 0x05). -/
def StateSteam : Nat := 0x05

/-- `DE1::State::HotWater` (numeric code 0x06). -/
def StateHotWater : Nat := 0x06

/-- `DE1::State::HotWaterRinse` (numeric code 0x0F). -/
def StateHotWaterRinse : Nat := 0x0F

/-- `DE1::SubState::Ready`. -/
def SubReady : Nat := 0

/-- `DE1::SubState::Heating`. -/
def SubHeating : Nat := 1

/-- `DE1::SubState::Preinfusion`. -/
def SubPreinfusion : Nat := 4

/-- `DE1::SubState::Pouring`. -/
def SubPouring : Nat := 5

/-- `DE1::SubState::Ending`. -/
def SubEnding : Nat := 6

/-- `DE1::SubState::Steaming`. -/
def SubSteaming : Nat := 7

/-- `DE1::MMR::GHC_INFO` address. -/
def MMR_GHC_INFO : Nat := 0x80381C

/-- `DE1::MMR::GHC_MODE` address. -/
def MMR_GHC_MODE : Nat := 0x803820

/-- `DE1::MMR::USB_CHARGER` address. -/
def MMR_USB_CHARGER : Nat := 0x803854

/-- `DE1::MMR::MACHINE_MODEL` address. -/
def MMR_MACHINE_MODEL : Nat := 0x80000C

/-- `DE1::MMR::FIRMWARE_VERSION` address. -/
def MMR_FIRMWARE_VERSION : Nat := 0x800010

end DE1

namespace BinaryCodec

/-- `BinaryCodec::encodeU8P4`: `static_cast<uint8_t>(qBound(0.0, value*16.0, 255.0))`.
`qBound(lo, v, hi)` is `max lo (min v hi)`; the cast truncates a value already
clamped into `[0, 255]`, i.e. takes the floor. -/
def encodeU8P4 (value : ℚ) : Nat := (Int.floor (max 0 (min (value * 16) 255))).toNat

/-- `BinaryCodec::decodeU8P4`: `value / 16.0`. -/
def decodeU8P4 (value : Nat) : ℚ := (value : ℚ) / 16

/-- `BinaryCodec::encodeU16P8`: `static_cast<uint16_t>(qBound(0.0, value*256.0, 65535.0))`. -/
def encodeU16P8 (value : ℚ) : Nat := (Int.floor (max 0 (min (value * 256) 65535))).toNat

/-- `BinaryCodec::decodeU8P1`: `value / 2.0`. -/
def decodeU8P1 (value : Nat) : ℚ := (value : ℚ) / 2

/-- `BinaryCodec::decodeF8_1_7`: high bit set means the low 7 bits as an
integer, otherwise `value / 10.0`. -/
def decodeF8_1_7 (value : Nat) : ℚ :=
  if value &&& 0x80 ≠ 0 then ((value &&& 0x7F : Nat) : ℚ) else (value : ℚ) / 10

/-- `BinaryCodec::decodeShortBE`: `(data[0] << 8) | data[1]`. -/
def decodeShortBE (b0 b1 : Nat) : Nat := (b0 <<< 8) ||| b1

/-- `BinaryCodec::decodeU10P0`: big-endian 16-bit read masked to 10 bits. -/
def decodeU10P0 (b0 b1 : Nat) : Nat := decodeShortBE b0 b1 &&& 0x3FF

/-- `BinaryCodec::decodeAddress`: 24-bit big-endian read of three bytes. -/
def decodeAddress (b0 b1 b2 : Nat) : Nat := (b0 <<< 16) ||| (b1 <<< 8) ||| b2

/-- `BinaryCodec::encodeShortBE` as a byte list. -/
def encodeShortBE (value : Nat) : List Nat := [(value >>> 8) &&& 0xFF, value &&& 0xFF]

/-- `BinaryCodec::encodeUint32BE` as a byte list. -/
def encodeUint32BE (value : Nat) : List Nat :=
  [(value >>> 24) &&& 0xFF, (value >>> 16) &&& 0xFF, (value >>> 8) &&& 0xFF, value &&& 0xFF]

end BinaryCodec

/-- `ProfileFrame` from `main.cpp` (the fields the assembler writes). -/
structure ProfileFrame where
  frameIndex : Nat
  flags : Nat
  setVal : ℚ
  temp : ℚ
  duration : ℚ
  triggerVal : ℚ
  maxVol : Nat
  hasExtension : Bool
  limiterValue : ℚ
  limiterRange : ℚ
deriving Repr, DecidableEq

/-- The default-constructed `ProfileFrame` (all fields zero / false). -/
def ProfileFrame.default : ProfileFrame :=
  ⟨0, 0, 0, 0, 0, 0, 0, false, 0, 0⟩

/-- `ProfileFrame::pumpMode`: bit 0 of the flags selects Flow over Pressure. -/
def ProfileFrame.isFlowMode (f : ProfileFrame) : Bool := f.flags &&& 0x01 ≠ 0

/-- `ProfileHeader` from `main.cpp`. -/
structure ProfileHeader where
  headerV : Nat
  numFrames : Nat
  numPreinfuseFrames : Nat
  minPressure : ℚ
  maxFlow : ℚ
deriving Repr, DecidableEq

/-- The default-constructed `ProfileHeader`. -/
def ProfileHeader.default : ProfileHeader := ⟨0, 0, 0, 0, 0⟩

/-- Log categories used by `DE1Simulator::log`. -/
inductive LogCat where
  | info
  | rx
  | tx
  | pi
  | warn
  | err
deriving Repr, DecidableEq

/-- The engine state of `DE1Simulator`: machine state, GHC combo value,
profile store, simulated values and the two shot-related timers.  The
phase timer is `some interval` while armed. -/
structure SimState where
  currentState : Nat
  currentSubState : Nat
  ghcMode : Nat
  profileHeader : ProfileHeader
  profileFrames : List ProfileFrame
  phaseTimer : Option Nat
  shotRunning : Bool
  shotTimerSec : ℚ
  pressure : ℚ
  flow : ℚ
  steamTemp : ℚ
  waterLevel : ℚ
  frameNumber : Nat
deriving Repr, DecidableEq

/-- The result of one synchronous handler: the new engine state, the
notifications pushed to the Agent (characteristic short id and payload
bytes), and the log entries appended. -/
structure Res where
  state : SimState
  notifs : List (String × List Nat)
  logs : List LogCat
deriving Repr, DecidableEq

namespace DE1Sim

open DE1 BinaryCodec

/-- `DE1Simulator::transitionToState`: assign the pair and send a STATE_INFO
notification with payload `{state, substate}` (logged as TX). -/
def transitionToState (st sub : Nat) (s : SimState) : Res :=
  let s' := { s with currentState := st, currentSubState := sub }
  ⟨s', [(CHAR_STATE_INFO, [st, sub])], [LogCat.tx]⟩

/-- `DE1Simulator::handleRequestedState`: the GHC gate followed by a
transition to `(requested, Ready)`. -/
def handleRequestedState (requested : Nat) (s : SimState) : Res :=
  if s.ghcMode = 3 then
    if requested ≠ StateSleep ∧ requested ≠ StateIdle then
      ⟨s, [], [LogCat.warn]⟩
    else
      transitionToState requested SubReady s
  else
    transitionToState requested SubReady s

/-- `DE1Simulator::handleMMRReadRequest`: guard, decode the 24-bit address
from bytes `[1..4)`, echo it big-endian, and append the canned 4-byte
payload chosen by address. -/
def handleMMRReadRequest (value : List Nat) (s : SimState) : Res :=
  if value.length < 4 then ⟨s, [], []⟩
  else
    let address := decodeAddress (value.getD 1 0) (value.getD 2 0) (value.getD 3 0)
    let payload : List Nat :=
      if address = MMR_GHC_INFO then [s.ghcMode % 256, 0, 0, 0]
      else if address = MMR_USB_CHARGER then [1, 0, 0, 0]
      else if address = MMR_MACHINE_MODEL then [2, 0, 0, 0]
      else if address = MMR_FIRMWARE_VERSION then [1, 0, 0, 0]
      else [0, 0, 0, 0]
    ⟨s, [(CHAR_READ_FROM_MMR, encodeUint32BE address ++ payload)], [LogCat.rx, LogCat.tx]⟩

/-- `DE1Simulator::handleMMRWrite`: guard, then log only (no side effect). -/
def handleMMRWrite (value : List Nat) (s : SimState) : Res :=
  if value.length < 8 then ⟨s, [], []⟩
  else ⟨s, [], [LogCat.rx]⟩

/-- `DE1Simulator::handleHeaderWrite`: guard (logged), then store the header
and reset the frame store to `numFrames` default frames. -/
def handleHeaderWrite (value : List Nat) (s : SimState) : Res :=
  if value.length < 5 then ⟨s, [], [LogCat.rx]⟩
  else
    let header : ProfileHeader :=
      ⟨value.getD 0 0, value.getD 1 0, value.getD 2 0,
        decodeU8P4 (value.getD 3 0), decodeU8P4 (value.getD 4 0)⟩
    ⟨{ s with profileHeader := header,
              profileFrames := List.replicate header.numFrames ProfileFrame.default },
      [], [LogCat.rx]⟩

/-- `DE1Simulator::handleFrameWrite`: guard (logged), then dispatch on the
wire index: `≥ 32` is an extension record, `= numFrames` the tail marker,
`< size` a primary frame, otherwise out of range. -/
def handleFrameWrite (value : List Nat) (s : SimState) : Res :=
  if value.length < 8 then ⟨s, [], [LogCat.rx]⟩
  else
    let frameIdx := value.getD 0 0
    if frameIdx ≥ 32 then
      let actualIdx := frameIdx - 32
      if actualIdx < s.profileFrames.length then
        let old := s.profileFrames.getD actualIdx ProfileFrame.default
        let f := { old with hasExtension := true,
                            limiterValue := decodeU8P4 (value.getD 1 0),
                            limiterRange := decodeU8P4 (value.getD 2 0) }
        ⟨{ s with profileFrames := s.profileFrames.set actualIdx f }, [], [LogCat.rx]⟩
      else ⟨s, [], []⟩
    else if frameIdx = s.profileHeader.numFrames then ⟨s, [], [LogCat.rx]⟩
    else if frameIdx < s.profileFrames.length then
      let old := s.profileFrames.getD frameIdx ProfileFrame.default
      let f : ProfileFrame :=
        { old with frameIndex := frameIdx,
                   flags := value.getD 1 0,
                   setVal := decodeU8P4 (value.getD 2 0),
                   temp := decodeU8P1 (value.getD 3 0),
                   duration := decodeF8_1_7 (value.getD 4 0),
                   triggerVal := decodeU8P4 (value.getD 5 0),
                   maxVol := decodeU10P0 (value.getD 6 0) (value.getD 7 0) }
      ⟨{ s with profileFrames := s.profileFrames.set frameIdx f }, [], [LogCat.rx]⟩
    else ⟨s, [], [LogCat.rx]⟩

/-- `DE1Simulator::handleShotSettings`: guard (logged), then log only. -/
def handleShotSettings (value : List Nat) (s : SimState) : Res :=
  if value.length < 9 then ⟨s, [], [LogCat.rx]⟩
  else ⟨s, [], [LogCat.rx]⟩

/-- `DE1Simulator::handleCharacteristicWrite`: string-keyed dispatch over the
characteristic short id.  A REQUESTED_STATE write is first logged (RX) when
at least one byte is present; an empty one falls through silently. -/
def handleCharacteristicWrite (charId : String) (value : List Nat) (s : SimState) : Res :=
  if charId = CHAR_REQUESTED_STATE then
    if value.length ≥ 1 then
      let r := handleRequestedState (value.getD 0 0) s
      ⟨r.state, r.notifs, LogCat.rx :: r.logs⟩
    else ⟨s, [], []⟩
  else if charId = CHAR_READ_FROM_MMR then handleMMRReadRequest value s
  else if charId = CHAR_WRITE_TO_MMR then handleMMRWrite value s
  else if charId = CHAR_HEADER_WRITE then handleHeaderWrite value s
  else if charId = CHAR_FRAME_WRITE then handleFrameWrite value s
  else if charId = CHAR_SHOT_SETTINGS then handleShotSettings value s
  else ⟨s, [], [LogCat.rx]⟩

/-- `DE1Simulator::startOperation`: honoured only from Idle or Sleep; zero
the live values, transition to the per-target initial substate, arm the
single-shot phase timer, and start the 200 ms shot-sample timer. -/
def startOperation (target : Nat) (s : SimState) : Res :=
  if s.currentState ≠ StateIdle ∧ s.currentState ≠ StateSleep then ⟨s, [], []⟩
  else
    let s1 := { s with shotTimerSec := 0, pressure := 0, flow := 0, frameNumber := 0 }
    let r :=
      if target = StateEspresso then
        let t := transitionToState StateEspresso SubHeating s1
        ⟨{ t.state with phaseTimer := some 2000 }, t.notifs, t.logs⟩
      else if target = StateSteam then
        let t := transitionToState StateSteam SubSteaming s1
        ⟨{ t.state with phaseTimer := some 45000 }, t.notifs, t.logs⟩
      else if target = StateHotWater then
        let t := transitionToState StateHotWater SubPouring s1
        ⟨{ t.state with phaseTimer := some 30000 }, t.notifs, t.logs⟩
      else if target = StateHotWaterRinse then
        let t := transitionToState StateHotWaterRinse SubPouring s1
        ⟨{ t.state with phaseTimer := some 10000 }, t.notifs, t.logs⟩
      else (⟨s1, [], []⟩ : Res)
    ⟨{ r.state with shotRunning := true }, r.notifs, r.logs⟩

/-- `DE1Simulator::stopOperation`: stop both timers, zero the live values,
and transition to (Idle, Ready). -/
def stopOperation (s : SimState) : Res :=
  let s1 := { s with shotRunning := false, phaseTimer := none,
                     pressure := 0, flow := 0, steamTemp := 0, frameNumber := 0 }
  transitionToState StateIdle SubReady s1

/-- `DE1Simulator::onPhaseTimeout`: the Espresso phase ladder and the
single-timer operations. -/
def onPhaseTimeout (s : SimState) : Res :=
  if s.currentState = StateEspresso then
    if s.currentSubState = SubHeating then
      let t := transitionToState StateEspresso SubPreinfusion s
      ⟨{ t.state with phaseTimer := some 5000 }, t.notifs, t.logs⟩
    else if s.currentSubState = SubPreinfusion then
      let t := transitionToState StateEspresso SubPouring s
      ⟨{ t.state with phaseTimer := some 25000 }, t.notifs, t.logs⟩
    else if s.currentSubState = SubPouring then
      let t := transitionToState StateEspresso SubEnding s
      ⟨{ t.state with phaseTimer := some 2000 }, t.notifs, t.logs⟩
    else if s.currentSubState = SubEnding then stopOperation s
    else ⟨s, [], []⟩
  else if s.currentState = StateSteam then stopOperation s
  else if s.currentState = StateHotWater then stopOperation s
  else if s.currentState = StateHotWaterRinse then stopOperation s
  else ⟨s, [], []⟩

/-- `DE1Simulator::onPowerClicked`. -/
def onPowerClicked (s : SimState) : Res :=
  if s.currentState = StateSleep then
    transitionToState StateIdle SubReady s
  else
    let r := stopOperation s
    let t := transitionToState StateSleep SubReady r.state
    ⟨t.state, r.notifs ++ t.notifs, r.logs ++ t.logs⟩

/-- `DE1Simulator::onEspressoClicked`. -/
def onEspressoClicked (s : SimState) : Res :=
  if s.currentState = StateEspresso then stopOperation s
  else startOperation StateEspresso s

/-- `DE1Simulator::onSteamClicked`. -/
def onSteamClicked (s : SimState) : Res :=
  if s.currentState = StateSteam then stopOperation s
  else startOperation StateSteam s

/-- `DE1Simulator::onHotWaterClicked`. -/
def onHotWaterClicked (s : SimState) : Res :=
  if s.currentState = StateHotWater then stopOperation s
  else startOperation StateHotWater s

/-- `DE1Simulator::onFlushClicked`. -/
def onFlushClicked (s : SimState) : Res :=
  if s.currentState = StateHotWaterRinse then stopOperation s
  else startOperation StateHotWaterRinse s

/-- `DE1Simulator::onStopClicked`. -/
def onStopClicked (s : SimState) : Res := stopOperation s

/-- `DE1Simulator::sendWaterLevel`: map the percentage to millimetres and
push a 2-byte big-endian U16P8 notification. -/
def sendWaterLevel (s : SimState) : Res :=
  let waterMm : ℚ := s.waterLevel / 100 * 40 - 5
  ⟨s, [(CHAR_WATER_LEVELS, encodeShortBE (encodeU16P8 waterMm))], []⟩

/-- `DE1Simulator::sendStateNotification` (also logged as TX). -/
def sendStateNotification (s : SimState) : Res :=
  ⟨s, [(CHAR_STATE_INFO, [s.currentState, s.currentSubState])], [LogCat.tx]⟩

/-- The engine-relevant events the Controller's scheduler can deliver:
a characteristic write forwarded from the Agent, the single-shot phase
timer firing, or one of the operator commands. -/
inductive Event where
  | piWrite (charId : String) (data : List Nat)
  | phaseTimeout
  | powerClick
  | espressoClick
  | steamClick
  | hotWaterClick
  | flushClick
  | stopClick
deriving Repr, DecidableEq

/-- The single dispatcher all engine mutations funnel through.  A single-shot
timer is disarmed when it fires, before its slot runs; a timeout event with
no armed timer does nothing. -/
def step (s : SimState) (e : Event) : Res :=
  match e with
  | .piWrite charId data => handleCharacteristicWrite charId data s
  | .phaseTimeout =>
      match s.phaseTimer with
      | some _ => onPhaseTimeout { s with phaseTimer := none }
      | none => ⟨s, [], []⟩
  | .powerClick => onPowerClicked s
  | .espressoClick => onEspressoClicked s
  | .steamClick => onSteamClicked s
  | .hotWaterClick => onHotWaterClicked s
  | .flushClick => onFlushClicked s
  | .stopClick => onStopClicked s

/-- The initial engine state of `DE1Simulator`: (Idle, Ready), GHC combo
defaulting to mode 3, empty profile, timers stopped, water level 75 %. -/
def de1Init : SimState :=
  { currentState := DE1.StateIdle
    currentSubState := DE1.SubReady
    ghcMode := 3
    profileHeader := ProfileHeader.default
    profileFrames := []
    phaseTimer := none
    shotRunning := false
    shotTimerSec := 0
    pressure := 0
    flow := 0
    steamTemp := 0
    waterLevel := 75
    frameNumber := 0 }

/-- Events from the Pi forwarded over the control channel, as dispatched by
`DE1Simulator::handlePiEvent`. -/
inductive PiEvent where
  | ready
  | advertisingEv
  | connectedEv (client : String)
  | disconnectedEv
  | writeEv (charId : String) (data : List Nat)
  | readEv (charId : String)
  | errorEv (code : Nat)
deriving Repr, DecidableEq

/-- `DE1Simulator::handlePiEvent`: on `ready` the Controller logs (PI), sends
the current STATE_INFO and a water-level notification; `write` events go to
the characteristic dispatcher; the remaining events only log. -/
def handlePiEvent (e : PiEvent) (s : SimState) : Res :=
  match e with
  | .ready =>
      let r1 := sendStateNotification s
      let r2 := sendWaterLevel r1.state
      ⟨r2.state, r1.notifs ++ r2.notifs, LogCat.pi :: (r1.logs ++ r2.logs)⟩
  | .advertisingEv => ⟨s, [], [LogCat.pi]⟩
  | .connectedEv _ => ⟨s, [], [LogCat.pi]⟩
  | .disconnectedEv => ⟨s, [], [LogCat.pi]⟩
  | .writeEv charId data => handleCharacteristicWrite charId data s
  | .readEv _ => ⟨s, [], [LogCat.rx]⟩
  | .errorEv _ => ⟨s, [], [LogCat.err]⟩

/-- One newline-terminated line of the control channel after JSON parsing:
`none` models a line whose JSON failed to parse. -/
def processLine (l : Option PiEvent) (s : SimState) : Res :=
  match l with
  | none => ⟨s, [], [LogCat.err]⟩
  | some e => handlePiEvent e s

/-- The reassembly loop of `DE1Simulator::onDataReceived`: each complete line
is parsed and dispatched in order; a parse failure is logged and the loop
continues with the remaining lines. -/
def processLines (ls : List (Option PiEvent)) (s : SimState) : Res :=
  match ls with
  | [] => ⟨s, [], []⟩
  | l :: rest =>
      let r := processLine l s
      let r2 := processLines rest r.state
      ⟨r2.state, r.notifs ++ r2.notifs, r.logs ++ r2.logs⟩

/-- Folding a sequence of REQUESTED_STATE values through the GHC-gated
handler. -/
def requestedStateFold (reqs : List Nat) (s : SimState) : SimState :=
  reqs.foldl (fun st r => (handleRequestedState r st).state) s

/-- Folding a sequence of FRAME_WRITE payloads through the assembler. -/
def applyFrameWrites (ws : List (List Nat)) (s : SimState) : SimState :=
  ws.foldl (fun st w => (handleFrameWrite w st).state) s

/-- A HEADER_WRITE followed by a sequence of FRAME_WRITEs. -/
def assembleProfile (hdr : List Nat) (ws : List (List Nat)) (s : SimState) : SimState :=
  applyFrameWrites ws (handleHeaderWrite hdr s).state

/-- The observable of the phase ladder: (state, substate, armed phase-timer
interval). -/
def ladderObs (s : SimState) : Nat × Nat × Option Nat :=
  (s.currentState, s.currentSubState, s.phaseTimer)

/-- The Espresso run: a start operation followed by the four firings of the
single-shot phase timer, observed after each scheduler turn. -/
def espressoLadder (s : SimState) : List (Nat × Nat × Option Nat) :=
  let s0 := (startOperation DE1.StateEspresso s).state
  let s1 := (step s0 .phaseTimeout).state
  let s2 := (step s1 .phaseTimeout).state
  let s3 := (step s2 .phaseTimeout).state
  let s4 := (step s3 .phaseTimeout).state
  [ladderObs s0, ladderObs s1, ladderObs s2, ladderObs s3, ladderObs s4]

/-- The 33 frame-write payloads `[i, 0, 0, 0, 0, 0, 0, 0]` for `i = 0..32`,
used to probe the assembler at `numFrames = 33`. -/
def frameWrites33 : List (List Nat) :=
  (List.range 33).map fun i => [i, 0, 0, 0, 0, 0, 0, 0]

end DE1Sim

/-- A 32-bit value laid out little-endian, as the spec words the MMR
response payload ("bytes [4..8) are a little-endian 32-bit canned value"). -/
def le32 (v : Nat) : List Nat :=
  [v % 256, v / 256 % 256, v / 65536 % 256, v / 16777216 % 256]

/-- The canned MMR read table as the code implements it: the current GHC
mode is served at `GHC_INFO` (0x80381C), `USB_CHARGER` (0x803854) yields 1,
`MACHINE_MODEL` (0x80000C) yields 2, `FIRMWARE_VERSION` (0x800010) yields
0x00000001, and every other address yields 0. -/
def mmrCannedValue (addr ghc : Nat) : Nat :=
  if addr = DE1.MMR_GHC_INFO then ghc
  else if addr = DE1.MMR_USB_CHARGER then 1
  else if addr = DE1.MMR_MACHINE_MODEL then 2
  else if addr = DE1.MMR_FIRMWARE_VERSION then 1
  else 0

/-- The observable radio-agent state: whether BLE advertising is on, and
whether the Controller TCP session and a BLE central are attached. -/
structure DaemonState where
  advertising : Bool
  tcpConnected : Bool
  bleConnected : Bool
deriving Repr, DecidableEq

/-- The events the agent's event loop reacts to. -/
inductive DaemonEvent where
  | tcpConnect
  | tcpDisconnect
  | bleConnect
  | bleDisconnect
  | cmdStart
  | cmdStop
deriving Repr, DecidableEq

/-- Step function of the standalone Pi daemon
(`src/pi-daemon/de1-ble-daemon.cpp`): a second Controller connection is
refused; the Controller-disconnect lambda only clears the client pointer
("Keep advertising - don't stop when Windows disconnects"); a BLE
disconnect restarts advertising; `start`/`stop` commands toggle
advertising. -/
def piDaemonStep (s : DaemonState) (e : DaemonEvent) : DaemonState :=
  match e with
  | .tcpConnect => if s.tcpConnected then s else { s with tcpConnected := true }
  | .tcpDisconnect => { s with tcpConnected := false }
  | .bleConnect => { s with bleConnected := true }
  | .bleDisconnect => { s with bleConnected := false, advertising := true }
  | .cmdStart => { s with advertising := true }
  | .cmdStop => { s with advertising := false }

/-- Step function of the embedded daemon copy (`DAEMON_CPP` in `main.cpp`):
`onTcpConnection` starts advertising, and its disconnect lambda calls
`m_bleController->stopAdvertising()`.  Its `onTcpData` handles only
`notify`/`update`, so `start`/`stop` commands are ignored. -/
def embeddedDaemonStep (s : DaemonState) (e : DaemonEvent) : DaemonState :=
  match e with
  | .tcpConnect =>
      if s.tcpConnected then s else { s with tcpConnected := true, advertising := true }
  | .tcpDisconnect => { s with tcpConnected := false, advertising := false }
  | .bleConnect => { s with bleConnected := true }
  | .bleDisconnect => { s with bleConnected := false, advertising := true }
  | .cmdStart => s
  | .cmdStop => s

section Claims

open DE1 DE1Sim BinaryCodec

/-- C7: for every `v` in `[0, 15.9375]`, `decodeU8P4 (encodeU8P4 v)` differs
from `v` by at most `1/16`; for `v < 0` the encoder yields `encodeU8P4 0`,
and for `v > 15.9375` it yields 255 — the encoder clamps and never wraps. -/
theorem c7_encodeU8P4_roundtrip_and_clamp :
    (∀ v : ℚ, 0 ≤ v → v ≤ 255 / 16 →
      |decodeU8P4 (encodeU8P4 v) - v| ≤ 1 / 16) ∧
    (∀ v : ℚ, v < 0 → encodeU8P4 v = encodeU8P4 0) ∧
    (∀ v : ℚ, 255 / 16 < v → encodeU8P4 v = 255) := by
  refine ⟨fun v h0 h1 => ?_, fun v hv => ?_, fun v hv => ?_⟩
  · have h16 : (0 : ℚ) ≤ v * 16 := by linarith
    have h255 : v * 16 ≤ 255 := by linarith
    have hmm : max 0 (min (v * 16) 255) = v * 16 := by
      rw [min_eq_left h255, max_eq_right h16]
    unfold encodeU8P4 decodeU8P4
    rw [hmm]
    have hfl : (0 : ℤ) ≤ ⌊v * 16⌋ := Int.floor_nonneg.mpr h16
    have hcast : ((⌊v * 16⌋.toNat : ℚ)) = ((⌊v * 16⌋ : ℤ) : ℚ) := by
      exact_mod_cast congrArg (fun z : ℤ => (z : ℚ)) (Int.toNat_of_nonneg hfl)
    rw [hcast]
    have hle : ((⌊v * 16⌋ : ℤ) : ℚ) ≤ v * 16 := Int.floor_le _
    have hgt : v * 16 < ((⌊v * 16⌋ : ℤ) : ℚ) + 1 := Int.lt_floor_add_one _
    rw [abs_le]
    constructor <;> linarith
  · unfold encodeU8P4
    have h1 : v * 16 ≤ 255 := by linarith
    have h2 : v * 16 ≤ 0 := by linarith
    rw [min_eq_left h1, max_eq_left h2]
    norm_num
  · unfold encodeU8P4
    have h1 : (255 : ℚ) ≤ v * 16 := by linarith
    rw [min_eq_right h1, max_eq_right (by norm_num : (0 : ℚ) ≤ (255 : ℚ))]
    norm_num
    rfl

/-- Witness for C7 at `v = 3`. -/
theorem c7_witness : |decodeU8P4 (encodeU8P4 3) - 3| ≤ 1 / 16 :=
  c7_encodeU8P4_roundtrip_and_clamp.1 3 (by norm_num) (by norm_num)

/-- C1 counterexample: a REQUESTED_STATE write of `04` (Espresso) while the
state is Idle and the GHC mode is 0 makes the engine emit STATE_INFO with
payload `04 00` (Espresso/Ready), not `04 01` (Espresso/Heating).  The
handler passes `SubState::Ready` to `transitionToState` and never calls
`startOperation`. -/
theorem c1_counterexample :
    (handleCharacteristicWrite CHAR_REQUESTED_STATE [0x04]
        { de1Init with ghcMode := 0 }).notifs
      = [(CHAR_STATE_INFO, [0x04, 0x00])] ∧
    [(CHAR_STATE_INFO, [0x04, 0x00])] ≠ [(CHAR_STATE_INFO, [0x04, 0x01])] := by
  decide

/-- C1 (amended): a REQUESTED_STATE write of `04` (Espresso) while the state
is Idle and the GHC mode is 0 makes the engine transition to
(Espresso, Ready) and emit a STATE_INFO notification with payload `04 00`. -/
theorem c1_amended (s : SimState) (_hs : s.currentState = StateIdle)
    (hg : s.ghcMode = 0) :
    handleCharacteristicWrite CHAR_REQUESTED_STATE [0x04] s =
      ⟨{ s with currentState := StateEspresso, currentSubState := SubReady },
        [(CHAR_STATE_INFO, [StateEspresso, SubReady])],
        [LogCat.rx, LogCat.tx]⟩ := by
  simp [handleCharacteristicWrite, handleRequestedState, transitionToState, hg,
    StateEspresso, SubReady, StateSleep, StateIdle]

/-- Witness for C1 (amended) at the initial state with GHC mode 0. -/
theorem c1_witness :
    handleCharacteristicWrite CHAR_REQUESTED_STATE [0x04]
        { de1Init with ghcMode := 0 } =
      ⟨{ { de1Init with ghcMode := 0 } with
          currentState := StateEspresso, currentSubState := SubReady },
        [(CHAR_STATE_INFO, [StateEspresso, SubReady])],
        [LogCat.rx, LogCat.tx]⟩ :=
  c1_amended _ rfl rfl

/-- C2 counterexample: a read-from-MMR request for address 0x803820 while
the GHC mode is 3 is answered with canned payload 0, not the GHC mode; the
code serves the mode at `GHC_INFO` = 0x80381C, not at 0x803820. -/
theorem c2_counterexample :
    (handleMMRReadRequest [0, 0x80, 0x38, 0x20] de1Init).notifs
      = [(CHAR_READ_FROM_MMR, [0, 0x80, 0x38, 0x20, 0, 0, 0, 0])] ∧
    de1Init.ghcMode = 3 ∧
    ([0, 0x80, 0x38, 0x20, 0, 0, 0, 0] : List Nat)
      ≠ [0, 0x80, 0x38, 0x20, 3, 0, 0, 0] := by
  decide

/-- C2 (amended): every ≥4-byte read-from-MMR request is answered by exactly
one 8-byte notification on READ_FROM_MMR whose bytes `[0..4)` are the
24-bit address of bytes `[1..4)` encoded big-endian and whose bytes
`[4..8)` are a little-endian 32-bit canned value: address 0x80381C
(`GHC_INFO`) yields the current GHC mode (0-4), 0x803854 yields 1,
0x80000C yields 2, 0x800010 yields 0x00000001, every other address 0. -/
theorem c2_amended (s : SimState) (value : List Nat) (h4 : 4 ≤ value.length)
    (hg : s.ghcMode ≤ 4) :
    handleMMRReadRequest value s =
      ⟨s, [(CHAR_READ_FROM_MMR,
            encodeUint32BE
              (decodeAddress (value.getD 1 0) (value.getD 2 0) (value.getD 3 0)) ++
            le32 (mmrCannedValue
              (decodeAddress (value.getD 1 0) (value.getD 2 0) (value.getD 3 0))
              s.ghcMode))],
        [LogCat.rx, LogCat.tx]⟩ := by
  have hlt : ¬ value.length < 4 := by omega
  have hmod : s.ghcMode % 256 = s.ghcMode := Nat.mod_eq_of_lt (by omega)
  have hdiv : s.ghcMode / 256 = 0 := Nat.div_eq_of_lt (by omega)
  have hdiv2 : s.ghcMode / 65536 = 0 := Nat.div_eq_of_lt (by omega)
  have hdiv3 : s.ghcMode / 16777216 = 0 := Nat.div_eq_of_lt (by omega)
  simp only [handleMMRReadRequest, hlt, if_false, le32, mmrCannedValue]
  split_ifs <;> simp_all

/-- Witness for C2 (amended): reading `GHC_INFO` (0x80381C) at the initial
state returns the GHC mode 3 in little-endian position. -/
theorem c2_witness :
    handleMMRReadRequest [0, 0x80, 0x38, 0x1C] de1Init =
      ⟨de1Init, [(CHAR_READ_FROM_MMR,
          encodeUint32BE (decodeAddress 0x80 0x38 0x1C) ++
          le32 (mmrCannedValue (decodeAddress 0x80 0x38 0x1C) 3))],
        [LogCat.rx, LogCat.tx]⟩ :=
  c2_amended de1Init [0, 0x80, 0x38, 0x1C] (by norm_num) (by norm_num [de1Init])

/-- C8: after a header declaring at least one frame, the FRAME_WRITE
`00 01 40 BE 32 00 00 64` sets frame 0 to pump mode Flow (flags bit 0 set),
`setVal = 4.0`, `temp = 95.0`, `duration = 5.0`, `triggerVal = 0`,
`maxVol = 100`, decoding bytes 1..7 as flags (U8), setVal (U8P4),
temp (U8P1), duration (F8_1_7), triggerVal (U8P4), maxVol (U10P0). -/
theorem c8_frame_write_example (s : SimState) (hdr : List Nat)
    (h5 : 5 ≤ hdr.length) (h1 : 1 ≤ hdr.getD 1 0) :
    ((handleFrameWrite [0x00, 0x01, 0x40, 0xBE, 0x32, 0x00, 0x00, 0x64]
        (handleHeaderWrite hdr s).state).state.profileFrames.getD 0 ProfileFrame.default)
      = ⟨0, 1, 4, 95, 5, 0, 100, false, 0, 0⟩ ∧
    ProfileFrame.isFlowMode ⟨0, 1, 4, 95, 5, 0, 100, false, 0, 0⟩ = true := by
  refine ⟨?_, by decide⟩
  have hlt : ¬ hdr.length < 5 := by omega
  obtain ⟨m, hm⟩ : ∃ m, hdr.getD 1 0 = m + 1 := ⟨hdr.getD 1 0 - 1, by omega⟩
  simp only [handleHeaderWrite, hlt, if_false, handleFrameWrite]
  simp only [List.getD_eq_getElem?_getD] at hm
  norm_num [hm, List.replicate_succ, List.set_cons_zero, List.getElem?_cons_zero,
    decodeU8P4, decodeU8P1, decodeF8_1_7, decodeU10P0, decodeShortBE, ProfileFrame.default]
  exact ⟨fun h => absurd (by decide) h, by decide⟩

/-- Witness for C8 with the concrete header `01 03 01 10 20` at the initial
state. -/
theorem c8_witness :
    ((handleFrameWrite [0x00, 0x01, 0x40, 0xBE, 0x32, 0x00, 0x00, 0x64]
        (handleHeaderWrite [0x01, 0x03, 0x01, 0x10, 0x20] de1Init).state).state.profileFrames.getD
        0 ProfileFrame.default)
      = ⟨0, 1, 4, 95, 5, 0, 100, false, 0, 0⟩ ∧
    ProfileFrame.isFlowMode ⟨0, 1, 4, 95, 5, 0, 100, false, 0, 0⟩ = true :=
  c8_frame_write_example de1Init [0x01, 0x03, 0x01, 0x10, 0x20] (by norm_num) (by norm_num)

/-- C3 counterexample: in the embedded daemon copy (`DAEMON_CPP` in
`main.cpp`), a Controller disconnect while advertising is on turns
advertising off: the disconnect lambda calls `stopAdvertising()`. -/
theorem c3_counterexample :
    (DaemonState.mk true true false).advertising = true ∧
    (embeddedDaemonStep ⟨true, true, false⟩ .tcpDisconnect).advertising = false := by
  decide

/-- C3 (amended): on Controller disconnect the standalone Pi daemon keeps
its advertising state unchanged (it never stops advertising in response to
the Controller disconnecting), while the embedded daemon copy in `main.cpp`
stops advertising on every Controller disconnect. -/
theorem c3_amended :
    (∀ s : DaemonState, (piDaemonStep s .tcpDisconnect).advertising = s.advertising) ∧
    (∀ s : DaemonState, (embeddedDaemonStep s .tcpDisconnect).advertising = false) :=
  ⟨fun _ => rfl, fun _ => rfl⟩

/-- C9 counterexample: a REQUESTED_STATE write shorter than 1 byte is
dropped with the engine state unchanged but produces no log entry at all,
contradicting "the input is logged and dropped". -/
theorem c9_counterexample :
    (handleCharacteristicWrite CHAR_REQUESTED_STATE [] de1Init).logs = [] ∧
    (handleCharacteristicWrite CHAR_REQUESTED_STATE [] de1Init).state = de1Init ∧
    (handleCharacteristicWrite CHAR_REQUESTED_STATE [] de1Init).notifs = [] := by
  decide

/-- C9 (amended): every short characteristic write (REQUESTED_STATE < 1
byte, read-from-MMR < 4, write-to-MMR < 8, header < 5, frame < 8, shot
settings < 9) is dropped with the engine state unchanged and no
notification emitted; the header, frame and shot-settings guards log the
rejection while the REQUESTED_STATE and MMR guards drop silently; a
malformed JSON line on the control channel is logged and skipped, the
engine state is unchanged by it, and the remaining lines are still
processed (the channel stays open). -/
theorem c9_amended :
    (∀ s : SimState, handleCharacteristicWrite CHAR_REQUESTED_STATE [] s = ⟨s, [], []⟩) ∧
    (∀ (s : SimState) (v : List Nat), v.length < 4 →
        handleCharacteristicWrite CHAR_READ_FROM_MMR v s = ⟨s, [], []⟩) ∧
    (∀ (s : SimState) (v : List Nat), v.length < 8 →
        handleCharacteristicWrite CHAR_WRITE_TO_MMR v s = ⟨s, [], []⟩) ∧
    (∀ (s : SimState) (v : List Nat), v.length < 5 →
        handleCharacteristicWrite CHAR_HEADER_WRITE v s = ⟨s, [], [LogCat.rx]⟩) ∧
    (∀ (s : SimState) (v : List Nat), v.length < 8 →
        handleCharacteristicWrite CHAR_FRAME_WRITE v s = ⟨s, [], [LogCat.rx]⟩) ∧
    (∀ (s : SimState) (v : List Nat), v.length < 9 →
        handleCharacteristicWrite CHAR_SHOT_SETTINGS v s = ⟨s, [], [LogCat.rx]⟩) ∧
    (∀ (s : SimState) (rest : List (Option PiEvent)),
        processLines (none :: rest) s =
          ⟨(processLines rest s).state, (processLines rest s).notifs,
            LogCat.err :: (processLines rest s).logs⟩) := by
  refine ⟨fun s => by simp [handleCharacteristicWrite],
          fun s v h => ?_, fun s v h => ?_, fun s v h => ?_, fun s v h => ?_,
          fun s v h => ?_, fun s rest => ?_⟩
  · simp [handleCharacteristicWrite, handleMMRReadRequest, h,
      CHAR_READ_FROM_MMR, CHAR_REQUESTED_STATE]
  · simp [handleCharacteristicWrite, handleMMRWrite, h,
      CHAR_WRITE_TO_MMR, CHAR_REQUESTED_STATE, CHAR_READ_FROM_MMR]
  · simp [handleCharacteristicWrite, handleHeaderWrite, h,
      CHAR_HEADER_WRITE, CHAR_REQUESTED_STATE, CHAR_READ_FROM_MMR, CHAR_WRITE_TO_MMR]
  · simp [handleCharacteristicWrite, handleFrameWrite, h,
      CHAR_FRAME_WRITE, CHAR_REQUESTED_STATE, CHAR_READ_FROM_MMR, CHAR_WRITE_TO_MMR,
      CHAR_HEADER_WRITE]
  · simp [handleCharacteristicWrite, handleShotSettings, h,
      CHAR_SHOT_SETTINGS, CHAR_REQUESTED_STATE, CHAR_READ_FROM_MMR, CHAR_WRITE_TO_MMR,
      CHAR_HEADER_WRITE, CHAR_FRAME_WRITE]
  · simp [processLines, processLine]

/-- Witness for C9 (amended): a 2-byte read-from-MMR request at the initial
state is dropped silently. -/
theorem c9_witness :
    handleCharacteristicWrite CHAR_READ_FROM_MMR [1, 2] de1Init = ⟨de1Init, [], []⟩ :=
  c9_amended.2.1 de1Init [1, 2] (by norm_num)

/-- Helper: a gated requested-state step under GHC mode 3 preserves the mode
and leaves the current state unchanged or equal to Sleep or Idle. -/
theorem handleRequestedState_ghc3_cases (r : Nat) (s : SimState) (hg : s.ghcMode = 3) :
    (handleRequestedState r s).state.ghcMode = 3 ∧
    ((handleRequestedState r s).state.currentState = s.currentState ∨
      (handleRequestedState r s).state.currentState = StateSleep ∨
      (handleRequestedState r s).state.currentState = StateIdle) := by
  unfold handleRequestedState transitionToState
  by_cases h : r ≠ StateSleep ∧ r ≠ StateIdle
  · simp [hg, h]
  · push_neg at h
    by_cases h0 : r = StateSleep
    · simp [hg, h0]
    · have h2 : r = StateIdle := h h0
      simp [hg, h2]

/-- C4: while the GHC mode is 3, a requested state other than Sleep or Idle
is logged (WARN) and dropped with the engine state unchanged; in every
other mode the request passes through to `(requested, Ready)`; hence along
any sequence of REQUESTED_STATE writes under mode 3 the current state only
ever moves to Sleep or Idle. -/
theorem c4_ghc_gate :
    (∀ (s : SimState) (r : Nat), s.ghcMode = 3 → r ≠ StateSleep → r ≠ StateIdle →
        handleRequestedState r s = ⟨s, [], [LogCat.warn]⟩) ∧
    (∀ (s : SimState) (r : Nat), s.ghcMode ≠ 3 →
        (handleRequestedState r s).state =
          { s with currentState := r, currentSubState := SubReady }) ∧
    (∀ (s : SimState) (reqs : List Nat), s.ghcMode = 3 →
        (requestedStateFold reqs s).currentState = s.currentState ∨
        (requestedStateFold reqs s).currentState = StateSleep ∨
        (requestedStateFold reqs s).currentState = StateIdle) := by
  refine ⟨fun s r hg h0 h2 => by simp [handleRequestedState, hg, h0, h2],
          fun s r hg => by simp [handleRequestedState, transitionToState, hg],
          fun s reqs => ?_⟩
  induction reqs generalizing s with
  | nil => intro _; left; rfl
  | cons r rest ih =>
    intro hg
    have hstep := handleRequestedState_ghc3_cases r s hg
    have hfold : requestedStateFold (r :: rest) s =
        requestedStateFold rest (handleRequestedState r s).state := rfl
    rw [hfold]
    rcases ih (handleRequestedState r s).state hstep.1 with h | h | h
    · rcases hstep.2 with h2 | h2 | h2
      · exact Or.inl (h.trans h2)
      · exact Or.inr (Or.inl (h.trans h2))
      · exact Or.inr (Or.inr (h.trans h2))
    · exact Or.inr (Or.inl h)
    · exact Or.inr (Or.inr h)

/-- Witness for C4: a gated Espresso request at the initial state (GHC mode
3) is dropped with a WARN log. -/
theorem c4_witness :
    handleRequestedState StateEspresso de1Init = ⟨de1Init, [], [LogCat.warn]⟩ :=
  c4_ghc_gate.1 de1Init StateEspresso rfl (by decide) (by decide)

/-- C5: an Espresso run begun by a start operation (state Idle or Sleep)
shows the substates Heating (initial 2000 ms timeout armed), Preinfusion
(5000 ms), Pouring (25000 ms), Ending (2000 ms) in exactly this order —
no repeats, no skips — then stops at (Idle, Ready) with the timer off. -/
theorem c5_espresso_phase_ladder (s : SimState)
    (hs : s.currentState = StateIdle ∨ s.currentState = StateSleep) :
    espressoLadder s =
      [(StateEspresso, SubHeating, some 2000),
       (StateEspresso, SubPreinfusion, some 5000),
       (StateEspresso, SubPouring, some 25000),
       (StateEspresso, SubEnding, some 2000),
       (StateIdle, SubReady, none)] := by
  rcases hs with h | h <;>
    simp [espressoLadder, ladderObs, step, startOperation, onPhaseTimeout, transitionToState,
      stopOperation, h, StateEspresso, StateIdle, StateSleep, StateSteam,
      StateHotWater, StateHotWaterRinse, SubHeating, SubPreinfusion,
      SubPouring, SubEnding, SubReady, SubSteaming]

/-- Witness for C5 at the initial state. -/
theorem c5_witness :
    espressoLadder de1Init =
      [(StateEspresso, SubHeating, some 2000),
       (StateEspresso, SubPreinfusion, some 5000),
       (StateEspresso, SubPouring, some 25000),
       (StateEspresso, SubEnding, some 2000),
       (StateIdle, SubReady, none)] :=
  c5_espresso_phase_ladder de1Init (Or.inl rfl)

/-- Helper: the requested-state handler never touches either timer. -/
theorem handleRequestedState_preserves_timers (r : Nat) (s : SimState) :
    (handleRequestedState r s).state.shotRunning = s.shotRunning ∧
    (handleRequestedState r s).state.phaseTimer = s.phaseTimer := by
  unfold handleRequestedState transitionToState
  split_ifs <;> simp

/-- Helper: the characteristic-write dispatcher never touches either
timer. -/
theorem handleCharacteristicWrite_preserves_timers (c : String) (d : List Nat) (s : SimState) :
    (handleCharacteristicWrite c d s).state.shotRunning = s.shotRunning ∧
    (handleCharacteristicWrite c d s).state.phaseTimer = s.phaseTimer := by
  unfold handleCharacteristicWrite
  split_ifs with h1 h2
  · exact ⟨(handleRequestedState_preserves_timers (d.getD 0 0) s).1,
      (handleRequestedState_preserves_timers (d.getD 0 0) s).2⟩
  · exact ⟨rfl, rfl⟩
  all_goals {
    first
    | (simp only [handleMMRReadRequest]; split_ifs <;> simp)
    | (simp only [handleMMRWrite]; split_ifs <;> simp)
    | (simp only [handleHeaderWrite]; split_ifs <;> simp)
    | (simp only [handleFrameWrite]; split_ifs <;> simp)
    | (simp only [handleShotSettings]; split_ifs <;> simp)
    | exact ⟨rfl, rfl⟩
  }

/-- C10: a REQUESTED_STATE write that passes the GHC gate moves the engine
to `(requestedState, Ready)` — the substate is always Ready — changing no
other field, in particular starting neither the phase timer nor the shot
sample timer; and across the whole dispatcher either timer can only go from
stopped to running on an operator start command. -/
theorem c10_requested_state_substate_ready :
    (∀ (s : SimState) (r : Nat), ¬ (s.ghcMode = 3 ∧ r ≠ StateSleep ∧ r ≠ StateIdle) →
        handleRequestedState r s =
          ⟨{ s with currentState := r, currentSubState := SubReady },
            [(CHAR_STATE_INFO, [r, SubReady])], [LogCat.tx]⟩) ∧
    (∀ (s : SimState) (e : Event), (step s e).state.shotRunning = true →
        s.shotRunning = true ∨ e = .espressoClick ∨ e = .steamClick ∨
          e = .hotWaterClick ∨ e = .flushClick) ∧
    (∀ (s : SimState) (e : Event), ((step s e).state.phaseTimer).isSome →
        (s.phaseTimer).isSome ∨ e = .espressoClick ∨ e = .steamClick ∨
          e = .hotWaterClick ∨ e = .flushClick) := by
  refine ⟨fun s r h => ?_, fun s e h => ?_, fun s e h => ?_⟩
  · unfold handleRequestedState transitionToState
    by_cases hg : s.ghcMode = 3
    · have hc : ¬ (r ≠ StateSleep ∧ r ≠ StateIdle) := fun hc => h ⟨hg, hc⟩
      simp [hg, hc]
    · simp [hg]
  · cases e with
    | piWrite c d =>
        exact Or.inl ((handleCharacteristicWrite_preserves_timers c d s).1 ▸ h)
    | phaseTimeout =>
        refine Or.inl ?_
        cases hpt : s.phaseTimer with
        | none => simpa [step, hpt] using h
        | some t =>
            simp only [step, hpt] at h
            unfold onPhaseTimeout stopOperation transitionToState at h
            split_ifs at h <;> simp_all
    | powerClick =>
        refine Or.inl ?_
        unfold step onPowerClicked stopOperation transitionToState at h
        split_ifs at h
        all_goals simp_all
    | espressoClick => exact Or.inr (Or.inl rfl)
    | steamClick => exact Or.inr (Or.inr (Or.inl rfl))
    | hotWaterClick => exact Or.inr (Or.inr (Or.inr (Or.inl rfl)))
    | flushClick => exact Or.inr (Or.inr (Or.inr (Or.inr rfl)))
    | stopClick =>
        refine Or.inl ?_
        unfold step onStopClicked stopOperation transitionToState at h
        simp_all
  · cases e with
    | piWrite c d =>
        exact Or.inl ((handleCharacteristicWrite_preserves_timers c d s).2 ▸ h)
    | phaseTimeout =>
        cases hpt : s.phaseTimer with
        | none =>
            refine Or.inl ?_
            simp only [step, hpt] at h
            exact h
        | some t => exact Or.inl (by simp [hpt])
    | powerClick =>
        refine Or.inl ?_
        unfold step onPowerClicked stopOperation transitionToState at h
        split_ifs at h <;> simp_all
    | espressoClick => exact Or.inr (Or.inl rfl)
    | steamClick => exact Or.inr (Or.inr (Or.inl rfl))
    | hotWaterClick => exact Or.inr (Or.inr (Or.inr (Or.inl rfl)))
    | flushClick => exact Or.inr (Or.inr (Or.inr (Or.inr rfl)))
    | stopClick =>
        refine Or.inl ?_
        unfold step onStopClicked stopOperation transitionToState at h
        simp_all

/-- Witness for C10: a Sleep request at the initial state (GHC mode 3)
passes the gate and lands in `(Sleep, Ready)`. -/
theorem c10_witness :
    handleRequestedState StateSleep de1Init =
      ⟨{ de1Init with currentState := StateSleep, currentSubState := SubReady },
        [(CHAR_STATE_INFO, [StateSleep, SubReady])], [LogCat.tx]⟩ :=
  c10_requested_state_substate_ready.1 de1Init StateSleep (by decide)

/-- Helper: a frame write whose wire index is below both 32 and the frame
count takes the primary branch and overwrites exactly that slot, setting
its `frameIndex` to the wire index. -/
theorem handleFrameWrite_primary (w : List Nat) (st : SimState)
    (hw : 8 ≤ w.length) (h32 : ¬ (w.getD 0 0 ≥ 32))
    (hne : w.getD 0 0 ≠ st.profileHeader.numFrames)
    (hidx : w.getD 0 0 < st.profileFrames.length) :
    (handleFrameWrite w st).state =
      { st with profileFrames := (st.profileFrames.set (w.getD 0 0)
          { st.profileFrames.getD (w.getD 0 0) ProfileFrame.default with
             frameIndex := w.getD 0 0,
             flags := w.getD 1 0,
             setVal := decodeU8P4 (w.getD 2 0),
             temp := decodeU8P1 (w.getD 3 0),
             duration := decodeF8_1_7 (w.getD 4 0),
             triggerVal := decodeU8P4 (w.getD 5 0),
             maxVol := decodeU10P0 (w.getD 6 0) (w.getD 7 0) }) } := by
  have h8 : ¬ w.length < 8 := by omega
  simp only [handleFrameWrite]
  rw [if_neg h8, if_neg h32, if_neg hne, if_pos hidx]

/-- Helper: reading back the slot just written. -/
theorem getD_set_self {α : Type} (l : List α) (i : Nat) (a d : α) (h : i < l.length) :
    (l.set i a).getD i d = a := by
  simp [List.getD_eq_getElem?_getD, List.getElem?_set_self h]

/-- Helper: reading a slot other than the one written. -/
theorem getD_set_ne {α : Type} (l : List α) (i j : Nat) (a d : α) (h : i ≠ j) :
    (l.set i a).getD j d = l.getD j d := by
  simp [List.getD_eq_getElem?_getD, List.getElem?_set_ne h]

/-- Helper: folding primary frame writes (all indices below `N ≤ 32`)
preserves the frame-store length, sets `frameIndex` to the wire index at
every index written, and leaves unwritten slots untouched. -/
theorem applyFrameWrites_primary (N : Nat) (h32 : N ≤ 32) :
    ∀ (ws : List (List Nat)) (st : SimState),
      st.profileHeader.numFrames = N →
      st.profileFrames.length = N →
      (∀ w ∈ ws, 8 ≤ w.length ∧ w.getD 0 0 < N) →
      (applyFrameWrites ws st).profileFrames.length = N ∧
      ∀ i, i < N →
        (if i ∈ ws.map (fun w => w.getD 0 0)
          then ((applyFrameWrites ws st).profileFrames.getD i ProfileFrame.default).frameIndex = i
          else (applyFrameWrites ws st).profileFrames.getD i ProfileFrame.default
               = st.profileFrames.getD i ProfileFrame.default) := by
  intro ws
  induction ws with
  | nil =>
    intro st _ h2 _
    exact ⟨h2, fun i _ => by simp [applyFrameWrites]⟩
  | cons w rest ih =>
    intro st hN hlen hws
    have hw := hws w (List.mem_cons_self w rest)
    have hstep := handleFrameWrite_primary w st hw.1 (by omega) (by omega) (by omega)
    have hN1 : (handleFrameWrite w st).state.profileHeader.numFrames = N := by
      rw [hstep]
      exact hN
    have hlen1 : (handleFrameWrite w st).state.profileFrames.length = N := by
      rw [hstep]
      simpa using hlen
    obtain ⟨ihlen, ihspec⟩ := ih ((handleFrameWrite w st).state) hN1 hlen1
      (fun w2 hw2 => hws w2 (List.mem_cons_of_mem _ hw2))
    have happ : applyFrameWrites (w :: rest) st =
        applyFrameWrites rest (handleFrameWrite w st).state := rfl
    rw [happ]
    refine ⟨ihlen, fun i hi => ?_⟩
    have hspec := ihspec i hi
    by_cases hmem : i ∈ rest.map (fun w => w.getD 0 0)
    · rw [if_pos hmem] at hspec
      have hmem2 : i ∈ (w :: rest).map (fun w => w.getD 0 0) := by
        rw [List.map_cons]
        exact List.mem_cons_of_mem _ hmem
      rw [if_pos hmem2]
      exact hspec
    · rw [if_neg hmem] at hspec
      by_cases heq : i = w.getD 0 0
      · have hmem2 : i ∈ (w :: rest).map (fun w => w.getD 0 0) := by
          rw [List.map_cons, heq]
          exact List.mem_cons_self _ _
        rw [if_pos hmem2, hspec, hstep]
        subst heq
        dsimp only
        rw [getD_set_self _ _ _ _ (by omega)]
      · have hmem2 : i ∉ (w :: rest).map (fun w => w.getD 0 0) := by
          rw [List.map_cons]
          intro hc
          rcases List.mem_cons.mp hc with hc1 | hc2
          · exact heq hc1
          · exact hmem hc2
        rw [if_neg hmem2, hspec, hstep]
        dsimp only
        rw [getD_set_ne _ _ _ _ _ (fun hh => heq hh.symm)]

set_option maxRecDepth 20000 in
/-- C6 counterexample: after a header with `numFrames = 33` and 33 frame
writes whose wire indices cover 0..32, the write at wire index 32 is
consumed as an extension record for frame 0 (the `>= 32` branch wins over
the primary branch), so `frames[32].frameIndex` is 0, not 32. -/
theorem c6_counterexample :
    (frameWrites33.map fun w => w.getD 0 0) = List.range 33 ∧
    (assembleProfile [1, 33, 0, 0, 0] frameWrites33 de1Init).profileFrames.length = 33 ∧
    ((assembleProfile [1, 33, 0, 0, 0] frameWrites33 de1Init).profileFrames.getD 32
        ProfileFrame.default).frameIndex = 0 ∧
    (0 : Nat) ≠ 32 := by
  refine ⟨by decide, by decide, by decide, by decide⟩

/-- C6 (amended): for every HEADER_WRITE declaring `numFrames = N` with
`N ≤ 32` followed by frame writes whose wire indices are exactly a
permutation of 0..N-1, the assembled profile contains exactly N frames and
`frames[i].frameIndex = i` for every `i < N`. -/
theorem c6_amended (s : SimState) (hdr : List Nat) (ws : List (List Nat)) (N : Nat)
    (hh : 5 ≤ hdr.length) (hN : hdr.getD 1 0 = N) (h32 : N ≤ 32)
    (hw : ∀ w ∈ ws, 8 ≤ w.length)
    (hperm : (ws.map fun w => w.getD 0 0).Perm (List.range N)) :
    (assembleProfile hdr ws s).profileFrames.length = N ∧
    ∀ i, i < N →
      ((assembleProfile hdr ws s).profileFrames.getD i ProfileFrame.default).frameIndex = i := by
  have hlt : ¬ hdr.length < 5 := by omega
  have hN2 : hdr[1]?.getD 0 = N := by
    simpa [List.getD_eq_getElem?_getD] using hN
  have h1 : (handleHeaderWrite hdr s).state.profileHeader.numFrames = N := by
    simp [handleHeaderWrite, hlt, hN2]
  have h2 : (handleHeaderWrite hdr s).state.profileFrames.length = N := by
    simp [handleHeaderWrite, hlt, hN2]
  have hidx : ∀ w ∈ ws, 8 ≤ w.length ∧ w.getD 0 0 < N := by
    intro w hwmem
    refine ⟨hw w hwmem, ?_⟩
    have hmm : w.getD 0 0 ∈ ws.map (fun w => w.getD 0 0) :=
      List.mem_map_of_mem _ hwmem
    exact List.mem_range.mp (hperm.mem_iff.mp hmm)
  obtain ⟨hl, hs2⟩ := applyFrameWrites_primary N h32 ws _ h1 h2 hidx
  refine ⟨hl, fun i hi => ?_⟩
  have hm : i ∈ ws.map (fun w => w.getD 0 0) :=
    hperm.mem_iff.mpr (List.mem_range.mpr hi)
  have hres := hs2 i hi
  rw [if_pos hm] at hres
  exact hres

/-- Witness for C6 (amended): header `01 03 01 10 20` (three frames)
followed by writes at wire indices 2, 0, 1 yields three frames with
`frames[i].frameIndex = i`. -/
theorem c6_witness :
    (assembleProfile [1, 3, 1, 16, 32]
        [[2, 0, 0, 0, 0, 0, 0, 0], [0, 0, 0, 0, 0, 0, 0, 0], [1, 0, 0, 0, 0, 0, 0, 0]]
        de1Init).profileFrames.length = 3 ∧
    ∀ i, i < 3 →
      ((assembleProfile [1, 3, 1, 16, 32]
          [[2, 0, 0, 0, 0, 0, 0, 0], [0, 0, 0, 0, 0, 0, 0, 0], [1, 0, 0, 0, 0, 0, 0, 0]]
          de1Init).profileFrames.getD i ProfileFrame.default).frameIndex = i :=
  c6_amended de1Init [1, 3, 1, 16, 32]
    [[2, 0, 0, 0, 0, 0, 0, 0], [0, 0, 0, 0, 0, 0, 0, 0], [1, 0, 0, 0, 0, 0, 0, 0]] 3
    (by norm_num) (by norm_num) (by norm_num) (by decide) (by decide)

end Claims
